import Mathlib

/-!
# Verification of the Direct2D presentation/rendering core

Shallow embedding of `src/modules/juce_graphics/native/juce_win32_Direct2DGraphicsContext.cpp`
(the authoritative current iteration, lines 1-2035) together with the JUCE
geometry primitives it relies on (`Rectangle<int>`, `RectangleList<int>`),
which live in the wider JUCE library and are embedded here from their
published, stable semantics.

Conventions of the embedding:
* machine integers and HRESULT values are `Int` (an HRESULT is failed iff
  negative, `S_OK = 0`, `DXGI_STATUS_OCCLUDED` is a positive success code);
* COM pointers that the code only tests for null are `Bool`
  (created / not created) or `Option Nat` (a handle);
* external fallible device calls (device creation, buffer creation, `EndDraw`
  results) are oracle parameters, so every branch of the source stays
  reachable in the model;
* float-valued payloads that the code never computes with (coordinates of
  float rectangles, line thicknesses, opacities) are carried as `Int` values,
  since only their flow, not their arithmetic, is verified.
-/

namespace JuceD2D

/-! ## JUCE `Rectangle<int>`

Embedded from the JUCE library (`juce_Rectangle.h`): a position plus a size,
with half-open point containment. These primitives are not under `src/`;
they are modelled from the library semantics the source file calls into. -/

structure Rectangle where
  x : Int
  y : Int
  w : Int
  h : Int
deriving DecidableEq

namespace Rectangle

def getRight (r : Rectangle) : Int := r.x + r.w

def getBottom (r : Rectangle) : Int := r.y + r.h

/-- `Rectangle::isEmpty`: true when either dimension is non-positive. -/
def isEmpty (r : Rectangle) : Bool := decide (r.w ≤ 0) || decide (r.h ≤ 0)

/-- `Rectangle::leftTopRightBottom`. -/
def leftTopRightBottom (l t r b : Int) : Rectangle := ⟨l, t, r - l, b - t⟩

/-- `Rectangle::contains (Point)`: half-open containment. -/
def containsPoint (r : Rectangle) (px py : Int) : Bool :=
  decide (r.x ≤ px) && decide (px < r.x + r.w) &&
  decide (r.y ≤ py) && decide (py < r.y + r.h)

/-- `Rectangle::getIntersection`: clips to the overlap, or returns the
all-zero rectangle when the rectangles do not meet. -/
def getIntersection (r other : Rectangle) : Rectangle :=
  let nx := max r.x other.x
  let ny := max r.y other.y
  let nw := min (r.x + r.w) (other.x + other.w) - nx
  let nh := min (r.y + r.h) (other.y + other.h) - ny
  if 0 ≤ nw ∧ 0 ≤ nh then ⟨nx, ny, nw, nh⟩ else ⟨0, 0, 0, 0⟩

/-- `Rectangle::intersects`: true when the interiors overlap (both
rectangles must be non-empty). -/
def intersects (r other : Rectangle) : Bool :=
  decide (other.x < r.x + r.w) && decide (other.y < r.y + r.h) &&
  decide (r.x < other.x + other.w) && decide (r.y < other.y + other.h) &&
  decide (0 < r.w) && decide (0 < r.h) && decide (0 < other.w) && decide (0 < other.h)

/-- `Rectangle::getUnion`: bounding box of the two rectangles; an empty
rectangle does not contribute (documented JUCE behaviour: "If either this or
the other rectangle are empty, they will not be counted as part of the
resulting region"). -/
def getUnion (r other : Rectangle) : Rectangle :=
  if other.isEmpty then r
  else if r.isEmpty then other
  else
    let nx := min r.x other.x
    let ny := min r.y other.y
    ⟨nx, ny, max (r.x + r.w) (other.x + other.w) - nx,
             max (r.y + r.h) (other.y + other.h) - ny⟩

/-- `Rectangle::contains (Rectangle)`: `other` lies wholly inside `r`. -/
def containsRect (r other : Rectangle) : Bool :=
  decide (r.x ≤ other.x) && decide (r.y ≤ other.y) &&
  decide (other.x + other.w ≤ r.x + r.w) && decide (other.y + other.h ≤ r.y + r.h)

/-- `Rectangle::reduceIfPartlyContainedIn`: when exactly one edge strip of
`r` sticks out of `other` (three of the four edge positions fall inside
`other`, tested half-open), `r` is shrunk to that strip and returned;
otherwise `none` (the source returns `false` and leaves `r` alone). The
four cases follow the source's `inside` bitmask switch. -/
def reduceIfPartlyContainedIn (r other : Rectangle) : Option Rectangle :=
  let insideL := decide (other.x ≤ r.x) && decide (r.x < other.x + other.w)
  let insideT := decide (other.y ≤ r.y) && decide (r.y < other.y + other.h)
  let insideR := decide (other.x ≤ r.x + r.w) && decide (r.x + r.w < other.x + other.w)
  let insideB := decide (other.y ≤ r.y + r.h) && decide (r.y + r.h < other.y + other.h)
  if insideL && insideT && insideB && !insideR then
    some ⟨other.x + other.w, r.y, r.x + r.w - (other.x + other.w), r.h⟩
  else if insideL && insideT && insideR && !insideB then
    some ⟨r.x, other.y + other.h, r.w, r.y + r.h - (other.y + other.h)⟩
  else if insideT && insideR && insideB && !insideL then
    some ⟨r.x, r.y, other.x - r.x, r.h⟩
  else if insideL && insideR && insideB && !insideT then
    some ⟨r.x, r.y, r.w, other.y - r.y⟩
  else none

end Rectangle

/-! ## Windows `RECT` and the conversion used for dirty rectangles -/

structure RECT where
  left : Int
  top : Int
  right : Int
  bottom : Int
deriving DecidableEq

/-- `direct2d::rectangleToRECT` (source lines 67-71). -/
def rectangleToRECT (r : Rectangle) : RECT :=
  ⟨r.x, r.y, r.getRight, r.getBottom⟩

/-- Spec-side notion used by the dirty-rectangle containment claim: a `RECT`
lies inside a buffer rectangle. -/
def RECTContainedIn (q : RECT) (bb : Rectangle) : Prop :=
  bb.x ≤ q.left ∧ bb.y ≤ q.top ∧ q.right ≤ bb.getRight ∧ q.bottom ≤ bb.getBottom

instance (q : RECT) (bb : Rectangle) : Decidable (RECTContainedIn q bb) := by
  unfold RECTContainedIn; infer_instance

/-! ## JUCE `RectangleList<int>`

The source file stores paint areas in a `RectangleList`, embedded as a
`List Rectangle` of the stored (never-empty) rectangles. The library
operations the source calls — `add`, `addWithoutMerging`, `subtract`,
`getBounds` — are embedded from their published JUCE implementations. -/

/-- The decomposition performed by one stored rectangle's visits in
`RectangleList::subtract`: a stored rectangle `r` that meets the subtrahend
`sub` (raw coordinate overlap test, as in the source loop) is replaced by
its left strip, right strip, and remaining middle top/bottom pieces — the
guillotine split the source's in-place shrink/insert/revisit sequence
produces, branch order x-left, x-right, y-top, y-bottom — with the covered
core dropped. A disjoint rectangle is kept unchanged. -/
def subtractFromRect (r sub : Rectangle) : List Rectangle :=
  let rx1 := r.x
  let ry1 := r.y
  let rx2 := r.x + r.w
  let ry2 := r.y + r.h
  let x1 := sub.x
  let y1 := sub.y
  let x2 := sub.x + sub.w
  let y2 := sub.y + sub.h
  if x2 ≤ rx1 ∨ x1 ≥ rx2 ∨ y2 ≤ ry1 ∨ y1 ≥ ry2 then [r]
  else
    let xm1 := max rx1 x1
    let xm2 := min rx2 x2
    (if x1 > rx1 then [⟨rx1, ry1, x1 - rx1, r.h⟩] else []) ++
    (if x2 < rx2 then [⟨x2, ry1, rx2 - x2, r.h⟩] else []) ++
    (if y1 > ry1 then [⟨xm1, ry1, xm2 - xm1, y1 - ry1⟩] else []) ++
    (if y2 < ry2 then [⟨xm1, y2, xm2 - xm1, ry2 - y2⟩] else [])

/-- `RectangleList::subtract (Rectangle)`: every stored rectangle meeting
the subtrahend is replaced by its decomposition; an empty subtrahend
changes nothing. -/
def rectangleListSubtract (rects : List Rectangle) (sub : Rectangle) : List Rectangle :=
  if sub.isEmpty then rects else rects.flatMap (fun r => subtractFromRect r sub)

/-- `RectangleList::add (Rectangle)` (JUCE library): an empty rectangle is
ignored and an empty list just stores the rectangle. Otherwise a first
pass, per stored rectangle, drops those wholly contained in the new
rectangle and shrinks those reducible with `reduceIfPartlyContainedIn`;
if some overlapping stored rectangle resisted both (`anyOverlaps`) and the
list is still non-empty, the new rectangle *minus* every remaining stored
rectangle it meets (processed back to front, as the source loop does) is
appended — nothing at all when that difference is empty, which is how a
rectangle already covered by the stored set is absorbed; with no such
leftover overlap the new rectangle is appended as-is. -/
def rectangleListAdd (rects : List Rectangle) (rect : Rectangle) : List Rectangle :=
  if rect.isEmpty then rects
  else if rects.isEmpty then [rect]
  else
    let pass := rects.filterMap (fun our =>
      if rect.intersects our then
        if rect.containsRect our then none
        else
          match our.reduceIfPartlyContainedIn rect with
          | some shrunk => some shrunk
          | none => some our
      else some our)
    let anyOverlaps := rects.any (fun our =>
      rect.intersects our && !(rect.containsRect our) &&
      (our.reduceIfPartlyContainedIn rect).isNone)
    if anyOverlaps && !pass.isEmpty then
      let remainder := pass.reverse.foldl (fun acc our =>
        if rect.intersects our then rectangleListSubtract acc our else acc) [rect]
      if remainder.isEmpty then pass else pass ++ remainder
    else pass ++ [rect]

/-- `RectangleList::addWithoutMerging`: append unchanged unless empty. -/
def rectListAddWithoutMerging (l : List Rectangle) (r : Rectangle) : List Rectangle :=
  if r.isEmpty then l else l ++ [r]

/-- `RectangleList::getBounds`: the all-zero rectangle for an empty list,
otherwise the bounding box of the stored rectangles. -/
def listBounds : List Rectangle → Rectangle
  | [] => ⟨0, 0, 0, 0⟩
  | r :: rs =>
      rs.foldl (fun a q =>
        Rectangle.leftTopRightBottom (min a.x q.x) (min a.y q.y)
          (max a.getRight q.getRight) (max a.getBottom q.getBottom)) r

/-! ## HRESULT conventions -/

def S_OK : Int := 0

def DXGI_STATUS_OCCLUDED : Int := 142278657

/-- `FAILED(hr)`: an HRESULT is a failure code iff its sign bit is set,
i.e. iff it is negative as a signed integer. -/
def FAILED (hr : Int) : Bool := decide (hr < 0)

/-! ## `direct2d::Presentation` (source lines 274-304) -/

inductive PresState where
  | clear
  | painting
  | painted
deriving DecidableEq

structure Presentation where
  status : Int := 0
  commandList : Bool := false
  paintAreas : List Rectangle := []
  bufferBounds : Rectangle := ⟨0, 0, 0, 0⟩
  dirtyRectangles : List RECT := []
  state : PresState := .clear
  frameNumber : Int := 0
deriving DecidableEq

/-- `Presentation::reset` (source lines 297-303): back to `clear`, paint
areas and dirty rectangles emptied, command list dropped. -/
def Presentation.reset (p : Presentation) : Presentation :=
  { p with state := .clear, paintAreas := [], dirtyRectangles := [], commandList := false }

/-! ## `Pimpl` device state (source lines 310-335) -/

structure DeviceResources where
  commandListDeviceContext : Bool := false
  threadDeviceContext : Bool := false
  swapChain : Bool := false
  swapChainBuffer : Bool := false
  colourBrush : Bool := false
deriving DecidableEq

structure PimplState where
  resources : DeviceResources := {}
  /-- `bufferBounds{ 1, 1 }` (source line 321): a 1 by 1 rectangle at the origin. -/
  bufferBounds : Rectangle := ⟨0, 0, 1, 1⟩
  presentation0 : Presentation := {}
  presentation1 : Presentation := {}
  /-- `presentationIndex` (source line 334), 0 or 1, embedded as a `Bool`. -/
  presentationIndex : Bool := false
  /-- `paintedPresentation` (source line 335): which slot is published, if any. -/
  paintedPresentation : Option Bool := none
  /-- Observation field counting calls to `swapChain->ResizeBuffers`
  (buffer reallocations); it mirrors no source variable and no source
  branch reads it. -/
  resizeBuffersCalls : Nat := 0
deriving DecidableEq

/-- The slot stored at index `i`. -/
def slotAt (s : PimplState) (i : Bool) : Presentation :=
  if i then s.presentation1 else s.presentation0

/-- `presentations + presentationIndex`: the write slot. -/
def writeSlot (s : PimplState) : Presentation := slotAt s s.presentationIndex

/-- `presentations[presentationIndex ^ 1]`: the alternate (in-flight) slot. -/
def otherSlot (s : PimplState) : Presentation := slotAt s (!s.presentationIndex)

/-- Replace the write slot. -/
def setWriteSlot (s : PimplState) (p : Presentation) : PimplState :=
  if s.presentationIndex then { s with presentation1 := p } else { s with presentation0 := p }

/-! ## `Pimpl` member functions -/

/-- `Pimpl::releaseDeviceContext` (source lines 584-595): drops the colour
brush, the swap-chain buffer, the swap chain and both device contexts, and
resets both `Presentation` slots. -/
def releaseDeviceContext (s : PimplState) : PimplState :=
  { s with resources := {},
           presentation0 := s.presentation0.reset,
           presentation1 := s.presentation1.reset }

/-- `Pimpl::createDeviceContext` (source lines 474-582): when the device
contexts are missing, the whole chain (D3D device, swap chain, both D2D
device contexts) is created; `devOk` is the oracle for the native creation
calls succeeding. Afterwards the solid colour brush is created if missing. -/
def createDeviceContext (devOk : Bool) (r : DeviceResources) : DeviceResources :=
  let r1 :=
    if (!r.commandListDeviceContext || !r.threadDeviceContext) && devOk then
      { r with commandListDeviceContext := true, threadDeviceContext := true, swapChain := true }
    else r
  if !r1.colourBrush && r1.commandListDeviceContext then { r1 with colourBrush := true } else r1

/-- `Pimpl::createSwapChainBuffer` (source lines 597-613); `bufOk` is the
oracle for `GetBuffer`/`CreateBitmapFromDxgiSurface` succeeding. -/
def createSwapChainBuffer (bufOk : Bool) (r : DeviceResources) : DeviceResources :=
  if r.threadDeviceContext && r.swapChain && !r.swapChainBuffer && bufOk then
    { r with swapChainBuffer := true }
  else r

/-- `Pimpl::isReadyToPaint` (source lines 814-817). -/
def isReadyToPaint (s : PimplState) : Bool :=
  decide ((otherSlot s).state = .clear)

/-- `Pimpl::addDeferredRepaint` (source lines 796-800): adds the rectangle
to the write slot's paint-area list. There is no other effect and no
precondition check in the source. -/
def addDeferredRepaint (deferredRepaint : Rectangle) (s : PimplState) : PimplState :=
  setWriteSlot s
    { writeSlot s with paintAreas := rectangleListAdd (writeSlot s).paintAreas deferredRepaint }

/-- `Pimpl::clearDeferredRepaints` (source lines 802-806). -/
def clearDeferredRepaints (s : PimplState) : PimplState :=
  setWriteSlot s { writeSlot s with paintAreas := [] }

/-- Result of `Pimpl::startRenderAsync`: the returned `Bool`, the state, and
the by-reference `initialClipBounds` out-parameter (`none` when the function
returns before writing it). -/
structure StartRenderResult where
  started : Bool
  state : PimplState
  initialClipBounds : Option Rectangle
deriving DecidableEq

/-- `Pimpl::startRenderAsync` (source lines 851-908). `updateRegionRects` is
the OS invalidated-region rectangle list fetched by `updateRegion.refresh`;
`devOk`/`bufOk` are the device-creation oracles. -/
def startRenderAsync (updateRegionRects : List Rectangle) (frameNumber : Int)
    (devOk bufOk : Bool) (s : PimplState) : StartRenderResult :=
  if !isReadyToPaint s then ⟨false, s, none⟩
  else
    let p := writeSlot s
    if updateRegionRects = [] ∧ p.paintAreas = [] then ⟨false, s, none⟩
    else
      let paintAreas1 := updateRegionRects.foldl rectangleListAdd p.paintAreas
      let clip := listBounds paintAreas1
      let p1 := { p with paintAreas := paintAreas1, frameNumber := frameNumber,
                         state := .painting }
      let res1 := createDeviceContext devOk s.resources
      let res2 := createSwapChainBuffer bufOk res1
      let p2 :=
        if res2.commandListDeviceContext && res2.swapChainBuffer then
          { p1 with commandList := true }
        else p1
      ⟨true, { setWriteSlot s p2 with resources := res2 }, some clip⟩

/-- The dirty-rectangle list built inside `finishRenderAsync` (source lines
932-946): every accumulated paint area is intersected with the buffer
bounds; non-empty intersections are converted to `RECT`s, empty ones are
dropped. -/
def dirtyListFor (paintAreas : List Rectangle) (bufferBounds : Rectangle) : List RECT :=
  paintAreas.filterMap (fun a =>
    let i := a.getIntersection bufferBounds
    if i.isEmpty then none else some (rectangleToRECT i))

/-- `Pimpl::finishRenderAsync` (source lines 910-958); `hr` is the HRESULT
returned by the `EndDraw` call on the command-list device context. -/
def finishRenderAsync (hr : Int) (s : PimplState) : PimplState :=
  if s.resources.commandListDeviceContext && s.resources.swapChain then
    let p := writeSlot s
    if FAILED hr then s
    else
      let paintBounds := listBounds p.paintAreas
      if !(s.bufferBounds.intersects paintBounds) || paintBounds.isEmpty then s
      else
        let p1 := { p with state := .painted,
                           dirtyRectangles := dirtyListFor p.paintAreas s.bufferBounds,
                           bufferBounds := s.bufferBounds }
        let s1 := { setWriteSlot s p1 with
                      paintedPresentation := some s.presentationIndex,
                      presentationIndex := !s.presentationIndex }
        if hr ≠ S_OK ∧ hr ≠ DXGI_STATUS_OCCLUDED then releaseDeviceContext s1 else s1
  else s

/-! ## `Pimpl::resize` (source lines 755-789) -/

/-- The bounds computation of `Pimpl::resize`: the client rectangle is
unioned with a 1 by 1 rectangle and intersected with a 16384 by 16384
rectangle (both at the origin). -/
def resizeBounds (clientRect : Rectangle) : Rectangle :=
  (clientRect.getUnion ⟨0, 0, 1, 1⟩).getIntersection ⟨0, 0, 16384, 16384⟩

/-- Modelled from the spec: the spec describes the buffer bounds as the
client-rect size "clamped to [1, 16384] in each dimension"; this is that
per-dimension clamp, to be compared against `resizeBounds`. -/
def clampedBufferBounds (clientRect : Rectangle) : Rectangle :=
  ⟨0, 0, max 1 (min clientRect.w 16384), max 1 (min clientRect.h 16384)⟩

/-- `Pimpl::resize` (source lines 755-789): recompute the bounds; return
unchanged if they did not move; otherwise release the swap-chain buffer,
call `ResizeBuffers` (oracle `resizeOk`) and either recreate the buffer or
release the whole device context. The function returns nothing in the
source (`void resize()`). -/
def resize (clientRect : Rectangle) (resizeOk bufOk : Bool) (s : PimplState) : PimplState :=
  let windowRect := resizeBounds clientRect
  if s.bufferBounds = windowRect then s
  else
    let s1 := { s with bufferBounds := windowRect }
    if s1.resources.swapChain then
      let released := { s1.resources with swapChainBuffer := false }
      let s2 := { s1 with resources := released, resizeBuffersCalls := s1.resizeBuffersCalls + 1 }
      if resizeOk then
        { s2 with resources := createSwapChainBuffer bufOk s2.resources }
      else
        releaseDeviceContext s2
    else s1

/-! ## The background presenter loop (`Pimpl::run`, source lines 337-419)

The presenter thread keeps one local flag `fullPresentDone`, initialised to
`false` when the thread starts and set after every `Present1` call to
whether that call succeeded. The dirty-rectangle list is handed to
`Present1` only when `fullPresentDone` is already true. Nothing in
`Pimpl::resize` or `Pimpl::releaseDeviceContext` touches this flag.

The loop is embedded as a step function over the two kinds of events it can
observe: a presentation being presented, and the swap-chain buffer being
resized or recreated between two presentations. `bufferFresh` is a ghost
observation (not a source variable): it records that the buffer was
(re)created since the last present, exactly the temporal condition the
claim about full presents speaks about. -/

/-- The dirty-rectangle parameters passed to `Present1` (source lines
400-408): the accumulated list when `fullPresentDone` holds, otherwise no
dirty rectangles (a full present). -/
def presentDirtyParams (fullPresentDone : Bool) (dirty : List RECT) : List RECT :=
  if fullPresentDone then dirty else []

inductive PresenterEvent where
  /-- A published presentation reaches `Present1`; `succeeded` is whether
  `Present1` returns a success code, `dirtyRectangles` is the slot's list. -/
  | presentFrame (succeeded : Bool) (dirtyRectangles : List RECT)
  /-- The swap-chain buffer is resized (`ResizeBuffers`) or the device is
  released and recreated between presents. -/
  | resizeBuffers
deriving DecidableEq

structure PresenterState where
  /-- The `run()` local; `false` at thread start. -/
  fullPresentDone : Bool := false
  /-- Ghost: the buffer has been (re)created and not presented since. -/
  bufferFresh : Bool := true
deriving DecidableEq

/-- One iteration of the presenter loop, returning the next state and, for a
present event, the dirty-rectangle parameters passed to `Present1`. -/
def presenterStep (st : PresenterState) : PresenterEvent → PresenterState × Option (List RECT)
  | .presentFrame succeeded dirty =>
      (⟨succeeded, false⟩, some (presentDirtyParams st.fullPresentDone dirty))
  | .resizeBuffers => ({ st with bufferFresh := true }, none)

/-- Run the presenter over an event list, recording for every present call
whether the buffer was fresh at that moment and which dirty rectangles were
passed to `Present1`. -/
def presenterRun (st : PresenterState) : List PresenterEvent → List (Bool × List RECT)
  | [] => []
  | e :: es =>
      match presenterStep st e with
      | (st1, some params) => (st.bufferFresh, params) :: presenterRun st1 es
      | (st1, none) => presenterRun st1 es

/-! ## `SavedState` (source lines 1007-1337)

The graphics state: fill descriptor, realized brush handles, clip bounds,
transform, font, realized font face, interpolation mode and the stack of
pushed clip layers. The `TranslationOrTransform` is embedded in its
translation form (the fast path built by `setOrigin`); shear/rotation
transforms are outside this embedding and the theorems that depend on the
transform assume the identity translation. -/

/-- Translation form of `RenderingHelpers::TranslationOrTransform`. -/
structure Translation where
  dx : Int := 0
  dy : Int := 0
deriving DecidableEq

def translateRect (t : Translation) (r : Rectangle) : Rectangle :=
  ⟨r.x + t.dx, r.y + t.dy, r.w, r.h⟩

/-- The `FillType` descriptor: solid colour, gradient or tiled image, with
an opaque payload for the describing value. -/
inductive FillKind where
  | colour (c : Int)
  | gradient (g : Int) (isRadial : Bool)
  | tiledImage (img : Int)
deriving DecidableEq

/-- `FillType()` default-constructs to solid black. -/
def defaultFill : FillKind := .colour 0

inductive InterpolationMode where
  | nearestNeighbor
  | linear
  | highQualityCubic
deriving DecidableEq

/-- `D2D1_FILL_MODE` passed to the geometry sink. -/
inductive FillMode where
  | winding
  | alternate
deriving DecidableEq

/-- A pushed clip/transparency layer (`SavedState::Layer` and friends): a
geometry layer carries the rectangles its path geometry was built from and
the sink's fill mode. -/
inductive ClipLayer where
  | geometryLayer (rects : List Rectangle) (mode : FillMode)
  | axisAlignedLayer (r : Rectangle)
  | transparencyLayer (opacity : Int)
deriving DecidableEq

structure SavedState where
  fillType : FillKind := defaultFill
  /-- `ID2D1Brush* currentBrush` — a raw, possibly shared handle. -/
  currentBrush : Option Nat := none
  bitmapBrush : Option Nat := none
  linearGradient : Option Nat := none
  radialGradient : Option Nat := none
  gradientStops : Option Nat := none
  clipRegion : Rectangle := ⟨0, 0, 0, 0⟩
  currentTransform : Translation := {}
  font : Int := 0
  fontHeightToEmSizeFactor : Int := 1
  /-- `IDWriteFontFace* currentFontFace` — a raw handle. -/
  currentFontFace : Option Nat := none
  interpolationMode : InterpolationMode := .linear
  pushedLayers : List ClipLayer := []
deriving DecidableEq

/-- `SavedState::clearFill` (source lines 1140-1147). -/
def SavedState.clearFill (s : SavedState) : SavedState :=
  { s with gradientStops := none, linearGradient := none, radialGradient := none,
           bitmapBrush := none, currentBrush := none }

/-- `SavedState::setFill` (source lines 1094-1101): replace the descriptor
and drop the realized brushes only when the describing value changed. -/
def SavedState.setFill (s : SavedState) (newFillType : FillKind) : SavedState :=
  if s.fillType ≠ newFillType then { s.clearFill with fillType := newFillType } else s

/-- `SavedState::clearFont` (source lines 1103-1106). -/
def SavedState.clearFont (s : SavedState) : SavedState :=
  { s with currentFontFace := none }

/-- `SavedState::setFont` (source lines 1108-1115). -/
def SavedState.setFont (s : SavedState) (newFont : Int) : SavedState :=
  if s.font ≠ newFont then { s with font := newFont }.clearFont else s

/-- The `SavedState` constructor in the `owner.currentState != nullptr`
branch (source lines 1013-1026): starting from the default-initialised
members, it calls `setFill` with the parent's fill, then copies the
parent's `currentBrush`, clip region, transform, font, `currentFontFace`
and interpolation mode. -/
def savedStateChild (parent : SavedState) : SavedState :=
  let s0 : SavedState := {}
  let s1 := s0.setFill parent.fillType
  { s1 with currentBrush := parent.currentBrush,
            clipRegion := parent.clipRegion,
            currentTransform := parent.currentTransform,
            font := parent.font,
            currentFontFace := parent.currentFontFace,
            interpolationMode := parent.interpolationMode }

/-- The root-state branch of the constructor (source lines 1027-1034): clip
region from the buffer bounds when a device context exists, fill set to
solid black. -/
def savedStateRoot (deviceContext : Bool) (bufferBounds : Rectangle) : SavedState :=
  let s0 : SavedState := {}
  let s1 := if deviceContext then { s0 with clipRegion := bufferBounds } else s0
  s1.setFill (.colour 0)

/-! ## `Direct2DLowLevelGraphicsContext::restoreState` (source lines 1584-1594)

The state stack is a JUCE `OwnedArray` with the current state last.
`restoreState` asserts `states.size() > 1`, removes the last element, makes
the new last element current and calls `updateColourBrush()` through the
current-state pointer. When the popped state was the only one, the new
current-state pointer is null and that final call dereferences null; the
embedding returns `none` for this failure. -/

/-- The `jassert (states.size() > 1)` guard: true exactly when the
assertion does not fire. -/
def restoreStateAssertOk (states : List SavedState) : Bool :=
  decide (1 < states.length)

/-- `restoreState` in release builds (the assertion compiled out): pop the
last state unconditionally; `none` models the null `currentState`
dereference in the trailing `updateColourBrush()` call. -/
def restoreState (states : List SavedState) : Option (List SavedState) :=
  let states1 := states.dropLast
  match states1.getLast? with
  | none => none
  | some _ => some states1

/-! ## Drawing facade (source lines 1636-2033)

Every drawing primitive first checks `pimpl->getDeviceContext()`; the
geometric payloads are carried opaquely and each native draw call is
recorded as a `DrawOp`. `DrawContext` bundles the state the primitives
read: whether the command-list device context exists, the shared colour
brush handle, the oracles for native resource creation, and the current
`SavedState`. -/

inductive DrawOp where
  | fillRectangleOp (r : Rectangle)
  | drawRectangleOp (r : Rectangle) (lineThickness : Int)
  | fillGeometryOp (g : Int)
  | drawGeometryOp (g : Int) (strokeThickness : Int)
  | drawLineOp (x1 y1 x2 y2 : Int)
  | drawImageOp (img : Int)
  | drawRoundedRectangleOp (r : Rectangle) (cornerSize : Int) (lineThickness : Int)
  | fillRoundedRectangleOp (r : Rectangle) (cornerSize : Int)
  | drawEllipseOp (r : Rectangle) (lineThickness : Int)
  | fillEllipseOp (r : Rectangle)
  | drawGlyphRunOp (glyphs : List Int)
deriving DecidableEq

structure DrawContext where
  /-- `pimpl->getDeviceContext() != nullptr`. -/
  deviceContext : Bool
  /-- `pimpl->getColourBrush()` — the shared solid colour brush handle. -/
  colourBrush : Option Nat
  /-- Oracle: the handle a successful native brush creation returns. -/
  createdBrushHandle : Nat
  /-- Oracle: whether native geometry/bitmap creation succeeds. -/
  resourceCreationOk : Bool
  /-- `pimpl->getBufferBounds()`. -/
  bufferBounds : Rectangle
  /-- Oracle for `dynamic_cast<WindowsDirectWriteTypeface*>`: resolves a
  font to its DirectWrite font face and units-to-height scale factor. -/
  resolveFontFace : Int → Option (Nat × Int)
  state : SavedState

/-- `SavedState::createBrush` (source lines 1149-1225): does nothing unless
the brush is unrealized and a device context exists; a colour fill adopts
the shared colour brush, gradients and tiled images create dedicated
brushes. -/
def createBrush (ctx : DrawContext) : SavedState :=
  let s := ctx.state
  if s.currentBrush = none ∧ ctx.deviceContext = true then
    match s.fillType with
    | .colour _ => { s with currentBrush := ctx.colourBrush }
    | .tiledImage _ =>
        if ctx.resourceCreationOk then
          { s with bitmapBrush := some ctx.createdBrushHandle,
                   currentBrush := some ctx.createdBrushHandle }
        else s
    | .gradient _ isRadial =>
        if isRadial then
          { s with gradientStops := some ctx.createdBrushHandle,
                   radialGradient := some ctx.createdBrushHandle,
                   currentBrush := some ctx.createdBrushHandle }
        else
          { s with gradientStops := some ctx.createdBrushHandle,
                   linearGradient := some ctx.createdBrushHandle,
                   currentBrush := some ctx.createdBrushHandle }
  else s

/-- `SavedState::createFont` (source lines 1117-1129): when the font face is
unrealized, resolve the typeface; on success store the font face and the
height-to-em-size factor. Note: no device context is consulted. -/
def createFont (resolveFontFace : Int → Option (Nat × Int)) (s : SavedState) : SavedState :=
  if s.currentFontFace = none then
    match resolveFontFace s.font with
    | some (face, factor) =>
        { s with currentFontFace := some face, fontHeightToEmSizeFactor := factor }
    | none => s
  else s

/-- The drawing primitives of the facade, with their call arguments.
Float-typed source arguments are carried as `Int` payloads. -/
inductive DrawCall where
  | fillRect (r : Rectangle)
  | drawRect (r : Rectangle) (lineThickness : Int)
  | fillPath (pathId : Int)
  | drawPath (pathId : Int) (strokeThickness : Int)
  | drawImage (img : Int)
  | drawLine (x1 y1 x2 y2 : Int)
  | drawRoundedRectangle (r : Rectangle) (cornerSize : Int) (lineThickness : Int)
  | fillRoundedRectangle (r : Rectangle) (cornerSize : Int)
  | drawEllipse (r : Rectangle) (lineThickness : Int)
  | fillEllipse (r : Rectangle)
  | drawGlyph (glyphNumber : Int)
  | drawGlyphRun (glyphs : List Int)
deriving DecidableEq

/-- Result of one primitive: the returned value (`none` for void
primitives), the resulting `SavedState`, and the native draw calls issued. -/
structure PrimResult where
  returned : Option Bool
  state : SavedState
  ops : List DrawOp
deriving DecidableEq

/-- One drawing primitive of `Direct2DLowLevelGraphicsContext`
(source lines 1636-1669, 1671-1765, 1767-1805, 1817-1853, 1880-1958,
1975-2033), dispatched over `DrawCall`. Each branch mirrors the source
guard structure: the device-context check, brush/font realization, then the
native call. -/
def runPrimitive (ctx : DrawContext) : DrawCall → PrimResult
  | .fillRect r =>
      if ctx.deviceContext then
        ⟨none, createBrush ctx, [.fillRectangleOp r]⟩
      else ⟨none, ctx.state, []⟩
  | .drawRect r lineThickness =>
      if ctx.deviceContext then
        ⟨some true, createBrush ctx, [.drawRectangleOp r lineThickness]⟩
      else ⟨some false, ctx.state, []⟩
  | .fillPath pathId =>
      if ctx.deviceContext then
        let s1 := createBrush ctx
        if ctx.resourceCreationOk then ⟨none, s1, [.fillGeometryOp pathId]⟩
        else ⟨none, s1, []⟩
      else ⟨none, ctx.state, []⟩
  | .drawPath pathId strokeThickness =>
      if ctx.deviceContext then
        let s1 := createBrush ctx
        if ctx.resourceCreationOk then ⟨some true, s1, [.drawGeometryOp pathId strokeThickness]⟩
        else ⟨some false, s1, []⟩
      else ⟨some false, ctx.state, []⟩
  | .drawImage img =>
      if ctx.deviceContext then
        if ctx.resourceCreationOk then ⟨none, ctx.state, [.drawImageOp img]⟩
        else ⟨none, ctx.state, []⟩
      else ⟨none, ctx.state, []⟩
  | .drawLine x1 y1 x2 y2 =>
      if ctx.deviceContext then
        ⟨none, createBrush ctx, [.drawLineOp x1 y1 x2 y2]⟩
      else ⟨none, ctx.state, []⟩
  | .drawRoundedRectangle r cornerSize lineThickness =>
      if ctx.deviceContext then
        ⟨some true, createBrush ctx, [.drawRoundedRectangleOp r cornerSize lineThickness]⟩
      else ⟨some false, ctx.state, []⟩
  | .fillRoundedRectangle r cornerSize =>
      if ctx.deviceContext then
        ⟨some true, createBrush ctx, [.fillRoundedRectangleOp r cornerSize]⟩
      else ⟨some false, ctx.state, []⟩
  | .drawEllipse r lineThickness =>
      if ctx.deviceContext then
        ⟨some true, createBrush ctx, [.drawEllipseOp r lineThickness]⟩
      else ⟨some false, ctx.state, []⟩
  | .fillEllipse r =>
      if ctx.deviceContext then
        ⟨some true, createBrush ctx, [.fillEllipseOp r]⟩
      else ⟨some false, ctx.state, []⟩
  | .drawGlyph glyphNumber =>
      -- createBrush() and createFont() run before the device-context check
      -- (source lines 1819-1825)
      let s1 := createBrush ctx
      let s2 := createFont ctx.resolveFontFace s1
      if s2.currentFontFace ≠ none ∧ ctx.deviceContext = true then
        ⟨none, s2, [.drawGlyphRunOp [glyphNumber]]⟩
      else ⟨none, s2, []⟩
  | .drawGlyphRun glyphs =>
      -- same pre-check realization (source lines 1977-1992)
      let s1 := createBrush ctx
      let s2 := createFont ctx.resolveFontFace s1
      if s2.currentFontFace ≠ none ∧ ctx.deviceContext = true ∧ 0 < glyphs.length then
        ⟨none, s2, [.drawGlyphRunOp glyphs]⟩
      else ⟨none, s2, []⟩

/-- Two states agree on everything except the lazily realized font-face
cache (`currentFontFace`, `fontHeightToEmSizeFactor`). -/
def eqExceptFontCache (s1 s2 : SavedState) : Prop :=
  s2 = { s1 with currentFontFace := s2.currentFontFace,
                 fontHeightToEmSizeFactor := s2.fontHeightToEmSizeFactor }

/-! ## `excludeClipRectangle` (source lines 1508-1525) and the even-odd
geometry semantics -/

/-- `Pimpl::rectListToPathGeometry` (source lines 708-721): each stored
rectangle, transformed by the state transform, becomes one closed figure of
the path geometry; the loop walks the list from the last rectangle to the
first. The geometry is represented by its figure list. -/
def rectListToPathGeometry (t : Translation) (rects : List Rectangle) : List Rectangle :=
  (rects.map (translateRect t)).reverse

/-- Point membership of a path geometry under `D2D1_FILL_MODE_ALTERNATE`
(even-odd): a point is inside the geometry iff it lies inside an odd number
of the (axis-aligned, filled) figures. Modelled from the documented
Direct2D alternate fill rule. -/
def evenOddContains (figures : List Rectangle) (px py : Int) : Bool :=
  decide (figures.countP (fun q => q.containsPoint px py) % 2 = 1)

/-- The rectangle list built inside `excludeClipRectangle`:
`RectangleList<int> rectangles{ r }` (the constructor adds via
`addWithoutMerging`) followed by `rectangles.addWithoutMerging(bufferBounds)`. -/
def excludeClipRectangleRects (r bufferBounds : Rectangle) : List Rectangle :=
  rectListAddWithoutMerging (rectListAddWithoutMerging [] r) bufferBounds

/-- `Direct2DLowLevelGraphicsContext::excludeClipRectangle` (source lines
1508-1525): when a device context exists, convert the two-rectangle list to
a path geometry with `D2D1_FILL_MODE_ALTERNATE` and push it as a geometry
clip layer on the current state. -/
def excludeClipRectangle (r : Rectangle) (ctx : DrawContext) : SavedState :=
  if ctx.deviceContext then
    { ctx.state with pushedLayers := ctx.state.pushedLayers ++
        [.geometryLayer
          (rectListToPathGeometry ctx.state.currentTransform
            (excludeClipRectangleRects r ctx.bufferBounds))
          .alternate] }
  else ctx.state

/-! ## Concrete example states used by the witnesses and counterexamples -/

/-- A pipeline state whose alternate slot is mid-paint. -/
def sExC1 : PimplState := { presentation1 := { state := .painting } }

/-- Initial pipeline state after queueing one repaint area. -/
def sC7a : PimplState := addDeferredRepaint ⟨0, 0, 100, 100⟩ {}

/-- ... after `startRenderAsync` succeeds: the write slot is `painting`. -/
def sC7b : PimplState := (startRenderAsync [] 1 true true sC7a).state

/-- ... after a further `addDeferredRepaint` of an area disjoint from the
stored one lands on that same slot (disjoint, so `RectangleList::add`
stores it verbatim). -/
def sC7c : PimplState := addDeferredRepaint ⟨150, 150, 40, 40⟩ sC7b

/-- A mid-paint pipeline state with live device resources and a paint area
reaching beyond the 200 by 200 buffer. -/
def sExC2 : PimplState :=
  { resources := ⟨true, true, true, true, true⟩,
    bufferBounds := ⟨0, 0, 200, 200⟩,
    presentation0 := { state := .painting, commandList := true,
                       paintAreas := [⟨0, 0, 100, 100⟩, ⟨150, 150, 100, 100⟩] } }

/-- A mid-paint pipeline state with live device resources. -/
def sExC4 : PimplState :=
  { resources := ⟨true, true, true, true, true⟩,
    bufferBounds := ⟨0, 0, 200, 200⟩,
    presentation0 := { state := .painting, commandList := true,
                       paintAreas := [⟨0, 0, 100, 100⟩] } }

/-- A dirty rectangle for the presenter trace. -/
def dirtyC3 : RECT := ⟨0, 0, 50, 50⟩

/-- Presenter trace: successful present, buffer resize, present again. -/
def traceC3 : List PresenterEvent :=
  [.presentFrame true [dirtyC3], .resizeBuffers, .presentFrame true [dirtyC3]]

/-- A parent graphics state with a realized gradient brush handle and a
resolved font face. -/
def parentExC5 : SavedState :=
  { fillType := .gradient 3 false, currentBrush := some 5, currentFontFace := some 7 }

/-- A root graphics state. -/
def rootExC6 : SavedState := {}

/-- An ordinary client rectangle. -/
def clientExC8 : Rectangle := ⟨0, 0, 640, 480⟩

/-- A draw context with an active device and the identity transform. -/
def ctxExC9 : DrawContext :=
  { deviceContext := true, colourBrush := some 1, createdBrushHandle := 2,
    resourceCreationOk := true, bufferBounds := ⟨0, 0, 200, 200⟩,
    resolveFontFace := fun _ => none, state := {} }

/-- A draw context with *no* device created but a resolvable typeface. -/
def ctxExC10 : DrawContext :=
  { deviceContext := false, colourBrush := none, createdBrushHandle := 0,
    resourceCreationOk := true, bufferBounds := ⟨0, 0, 100, 100⟩,
    resolveFontFace := fun _ => some (7, 2), state := {} }

/-! ## Helper lemmas -/

theorem writeSlot_setWriteSlot (s : PimplState) (p : Presentation) :
    writeSlot (setWriteSlot s p) = p := by
  unfold writeSlot setWriteSlot slotAt
  cases h : s.presentationIndex <;> simp [h]

theorem otherSlot_setWriteSlot (s : PimplState) (p : Presentation) :
    otherSlot (setWriteSlot s p) = otherSlot s := by
  unfold otherSlot setWriteSlot slotAt
  cases h : s.presentationIndex <;> simp [h]

theorem state_setWriteSlot_index (s : PimplState) (p : Presentation) :
    (setWriteSlot s p).presentationIndex = s.presentationIndex := by
  unfold setWriteSlot
  cases h : s.presentationIndex <;> simp [h]

/-- Adding a non-empty rectangle to a paint-area list never leaves it
empty: either the rectangle (or its uncovered remainder) is stored, or the
subtract path's early return fires only when the stored set already covers
the rectangle — and that set survived the non-emptiness guard. -/
theorem rectangleListAdd_ne_nil (l : List Rectangle) (r : Rectangle)
    (h : r.isEmpty = false) : rectangleListAdd l r ≠ [] := by
  unfold rectangleListAdd
  rw [h]
  dsimp only
  simp only [Bool.false_eq_true, if_false]
  split
  · simp
  · split
    · rename_i hguard
      rw [Bool.and_eq_true, Bool.not_eq_true'] at hguard
      split
      · intro hc
        rw [hc] at hguard
        simp at hguard
      · rename_i hrem
        intro hc
        rcases List.append_eq_nil.mp hc with ⟨hp, hr⟩
        rw [hr] at hrem
        simp at hrem
    · simp

/-- A rectangle containing a point is not empty. -/
theorem isEmpty_false_of_containsPoint {r : Rectangle} {px py : Int}
    (h : r.containsPoint px py = true) : r.isEmpty = false := by
  simp only [Rectangle.containsPoint, Bool.and_eq_true, decide_eq_true_eq] at h
  simp only [Rectangle.isEmpty, Bool.or_eq_false_iff, decide_eq_false_iff_not]
  omega

/-- An empty rectangle contains no point. -/
theorem containsPoint_false_of_isEmpty {r : Rectangle} (px py : Int)
    (h : r.isEmpty = true) : r.containsPoint px py = false := by
  simp only [Rectangle.isEmpty, Bool.or_eq_true, decide_eq_true_eq] at h
  simp only [Rectangle.containsPoint, Bool.and_eq_false_iff, decide_eq_false_iff_not]
  omega

/-- A non-empty clipped rectangle lies inside the rectangle it was clipped
against. -/
theorem getIntersection_containedIn (a bb : Rectangle)
    (h : (a.getIntersection bb).isEmpty = false) :
    RECTContainedIn (rectangleToRECT (a.getIntersection bb)) bb := by
  simp only [Rectangle.getIntersection] at h ⊢
  by_cases hc : 0 ≤ min (a.x + a.w) (bb.x + bb.w) - max a.x bb.x ∧
      0 ≤ min (a.y + a.h) (bb.y + bb.h) - max a.y bb.y
  · rw [if_pos hc] at h ⊢
    simp only [Rectangle.isEmpty, Bool.or_eq_false_iff, decide_eq_false_iff_not] at h
    simp only [RECTContainedIn, rectangleToRECT, Rectangle.getRight, Rectangle.getBottom]
    refine ⟨by omega, by omega, by omega, by omega⟩
  · rw [if_neg hc] at h
    simp [Rectangle.isEmpty] at h

/-! ## Claim theorems -/

/-- C1: `startRenderAsync` returns `false` and leaves the whole pipeline
state — in particular both `Presentation` slots — untouched whenever the
alternate (non-write) slot is not `clear`; consequently the write slot is
transitioned to `painting` only when the other slot is `clear`, never while
it is `painting` or `painted`. -/
theorem startRenderAsync_backpressure_gate (updateRegionRects : List Rectangle)
    (frameNumber : Int) (devOk bufOk : Bool) (s : PimplState)
    (h : (otherSlot s).state ≠ PresState.clear) :
    startRenderAsync updateRegionRects frameNumber devOk bufOk s = ⟨false, s, none⟩ := by
  unfold startRenderAsync isReadyToPaint
  simp [h]

/-- C1 (witness): the gate theorem applied to a concrete state whose
alternate slot is `painting`. -/
theorem startRenderAsync_backpressure_gate_witness :
    (otherSlot sExC1).state ≠ PresState.clear ∧
    startRenderAsync [] 0 true true sExC1 = ⟨false, sExC1, none⟩ :=
  ⟨by decide, startRenderAsync_backpressure_gate [] 0 true true sExC1 (by decide)⟩

/-- C7 (counterexample): from the initial pipeline state, queue a repaint,
start a frame — the write slot is now `painting` and the write index has
not moved — and call `addDeferredRepaint` with an area disjoint from the
stored one: `RectangleList::add` stores the new area verbatim onto the slot
that is mid-paint (no merge interferes at a disjoint input). So repaint
areas *can* be queued onto a slot whose state is `painting`; the source has
no assertion preventing it. -/
theorem addDeferredRepaint_queues_onto_painting_slot :
    (writeSlot sC7b).state = PresState.painting ∧
    (writeSlot sC7c).paintAreas = (writeSlot sC7b).paintAreas ++ [⟨150, 150, 40, 40⟩] := by
  decide

/-- C7 (amended): `addDeferredRepaint(area)` hands the area to the write
slot's paint-area set via `RectangleList::add` (merge-aware: an area
already covered by stored rectangles adds nothing new, but a non-empty
area always leaves the set non-empty) — no slot state is read, no
precondition is asserted, and nothing else changes: the write slot's state,
the alternate slot and the write index are untouched, whatever state the
slots are in. -/
theorem addDeferredRepaint_unconditional (r : Rectangle) (s : PimplState) :
    writeSlot (addDeferredRepaint r s) =
      { writeSlot s with paintAreas := rectangleListAdd (writeSlot s).paintAreas r } ∧
    (writeSlot (addDeferredRepaint r s)).state = (writeSlot s).state ∧
    otherSlot (addDeferredRepaint r s) = otherSlot s ∧
    (addDeferredRepaint r s).presentationIndex = s.presentationIndex ∧
    (r.isEmpty = false → (writeSlot (addDeferredRepaint r s)).paintAreas ≠ []) := by
  unfold addDeferredRepaint
  refine ⟨writeSlot_setWriteSlot .., ?_, otherSlot_setWriteSlot .., state_setWriteSlot_index .., ?_⟩
  · rw [writeSlot_setWriteSlot]
  · intro h
    rw [writeSlot_setWriteSlot]
    exact rectangleListAdd_ne_nil (writeSlot s).paintAreas r h

/-- C7 (witness): the amended theorem applied at the disjoint repaint area
on the mid-paint state, discharging the non-emptiness hypothesis. -/
theorem addDeferredRepaint_unconditional_witness :
    (⟨150, 150, 40, 40⟩ : Rectangle).isEmpty = false ∧
    (writeSlot (addDeferredRepaint ⟨150, 150, 40, 40⟩ sC7b)).paintAreas ≠ [] :=
  ⟨by decide,
   (addDeferredRepaint_unconditional ⟨150, 150, 40, 40⟩ sC7b).2.2.2.2 (by decide)⟩

/-- C2: when `finishRenderAsync` publishes the write slot (successful
`EndDraw`, paint-area bounds non-empty and intersecting the buffer), the
published slot's dirty-rectangle list is exactly the accumulated paint
areas intersected with the current buffer bounds with empty intersections
dropped — so every dirty rectangle equals the intersection of one paint
area with the buffer bounds and is contained in the buffer bounds; and when
the paint-area bounds are empty or miss the buffer entirely, the state is
returned unchanged: the slot is neither marked `painted` nor published. -/
theorem finishRenderAsync_dirty_rectangle_containment (s : PimplState)
    (hdev : s.resources.commandListDeviceContext = true)
    (hswap : s.resources.swapChain = true) :
    ((s.bufferBounds.intersects (listBounds (writeSlot s).paintAreas) = false ∨
        (listBounds (writeSlot s).paintAreas).isEmpty = true) →
      finishRenderAsync S_OK s = s) ∧
    (s.bufferBounds.intersects (listBounds (writeSlot s).paintAreas) = true →
      (listBounds (writeSlot s).paintAreas).isEmpty = false →
      (finishRenderAsync S_OK s).paintedPresentation = some s.presentationIndex ∧
      (slotAt (finishRenderAsync S_OK s) s.presentationIndex).state = PresState.painted ∧
      (slotAt (finishRenderAsync S_OK s) s.presentationIndex).dirtyRectangles =
        dirtyListFor (writeSlot s).paintAreas s.bufferBounds ∧
      ∀ q ∈ dirtyListFor (writeSlot s).paintAreas s.bufferBounds,
        (∃ a ∈ (writeSlot s).paintAreas,
            (a.getIntersection s.bufferBounds).isEmpty = false ∧
            q = rectangleToRECT (a.getIntersection s.bufferBounds)) ∧
        RECTContainedIn q s.bufferBounds) := by
  have hok : FAILED S_OK = false := rfl
  have hrel : ¬(S_OK ≠ S_OK ∧ S_OK ≠ DXGI_STATUS_OCCLUDED) := by simp
  constructor
  · intro habort
    unfold finishRenderAsync
    simp only [hdev, hswap, Bool.and_self, if_true, hok, Bool.false_eq_true, if_false]
    rcases habort with h | h <;> simp [h]
  · intro hint hne
    have hcond : (!(s.bufferBounds.intersects (listBounds (writeSlot s).paintAreas)) ||
        (listBounds (writeSlot s).paintAreas).isEmpty) = false := by
      simp [hint, hne]
    refine ⟨?_, ?_, ?_, ?_⟩
    · unfold finishRenderAsync
      simp only [hdev, hswap, Bool.and_self, if_true, hok, Bool.false_eq_true, if_false, hcond,
        if_neg hrel]
    · unfold finishRenderAsync
      simp only [hdev, hswap, Bool.and_self, if_true, hok, Bool.false_eq_true, if_false, hcond,
        if_neg hrel]
      unfold slotAt setWriteSlot
      cases hidx : s.presentationIndex <;> simp [hidx]
    · unfold finishRenderAsync
      simp only [hdev, hswap, Bool.and_self, if_true, hok, Bool.false_eq_true, if_false, hcond,
        if_neg hrel]
      unfold slotAt setWriteSlot
      cases hidx : s.presentationIndex <;> simp [hidx]
    · intro q hq
      simp only [dirtyListFor, List.mem_filterMap] at hq
      obtain ⟨a, ha, hfa⟩ := hq
      by_cases he : (a.getIntersection s.bufferBounds).isEmpty = true
      · simp [he] at hfa
      · simp only [Bool.not_eq_true] at he
        simp only [he, Bool.false_eq_true, if_false, Option.some.injEq] at hfa
        exact ⟨⟨a, ha, he, hfa.symm⟩,
          hfa ▸ getIntersection_containedIn a s.bufferBounds he⟩

/-- C2 (witness): the containment theorem applied to a concrete mid-paint
state with a paint area that reaches beyond the buffer. -/
theorem finishRenderAsync_dirty_rectangle_containment_witness :
    sExC2.resources.commandListDeviceContext = true ∧
    sExC2.resources.swapChain = true ∧
    (((sExC2.bufferBounds.intersects (listBounds (writeSlot sExC2).paintAreas) = false ∨
        (listBounds (writeSlot sExC2).paintAreas).isEmpty = true) →
      finishRenderAsync S_OK sExC2 = sExC2) ∧
    (sExC2.bufferBounds.intersects (listBounds (writeSlot sExC2).paintAreas) = true →
      (listBounds (writeSlot sExC2).paintAreas).isEmpty = false →
      (finishRenderAsync S_OK sExC2).paintedPresentation = some sExC2.presentationIndex ∧
      (slotAt (finishRenderAsync S_OK sExC2) sExC2.presentationIndex).state = PresState.painted ∧
      (slotAt (finishRenderAsync S_OK sExC2) sExC2.presentationIndex).dirtyRectangles =
        dirtyListFor (writeSlot sExC2).paintAreas sExC2.bufferBounds ∧
      ∀ q ∈ dirtyListFor (writeSlot sExC2).paintAreas sExC2.bufferBounds,
        (∃ a ∈ (writeSlot sExC2).paintAreas,
            (a.getIntersection sExC2.bufferBounds).isEmpty = false ∧
            q = rectangleToRECT (a.getIntersection sExC2.bufferBounds)) ∧
        RECTContainedIn q sExC2.bufferBounds)) :=
  ⟨rfl, rfl, finishRenderAsync_dirty_rectangle_containment sExC2 rfl rfl⟩

/-- C4 (counterexample): with live device resources and a mid-paint write
slot, an `EndDraw` failure (`hr = -1`, a failed HRESULT) makes
`finishRenderAsync` return the state completely unchanged: the slot is
indeed not published, but the device contexts, swap chain, swap-chain
buffer and colour brush are all still alive — the surface resources are
*not* released, contrary to the claim. (The `releaseDeviceContext` branch
of `finishRenderAsync` is reachable only for success codes other than
`S_OK`/`DXGI_STATUS_OCCLUDED`, because `FAILED(hr)` returns early.) -/
theorem finishRenderAsync_device_failure_keeps_resources :
    FAILED (-1) = true ∧
    finishRenderAsync (-1) sExC4 = sExC4 ∧
    sExC4.resources = ⟨true, true, true, true, true⟩ := by
  decide

/-- C4 (amended): if `EndDraw` fails during `finishRenderAsync`, the
function returns at once with the pipeline state untouched — the write slot
is not marked `painted` and not published, and none of the surface
resources are released. -/
theorem finishRenderAsync_device_failure_no_publish (hr : Int) (s : PimplState)
    (h : FAILED hr = true) :
    finishRenderAsync hr s = s := by
  unfold finishRenderAsync
  split
  · simp [h]
  · rfl

/-- C4 (witness): the amended theorem applied to the concrete mid-paint
state `sExC4` with a failed HRESULT. -/
theorem finishRenderAsync_device_failure_no_publish_witness :
    FAILED (-1) = true ∧ finishRenderAsync (-1) sExC4 = sExC4 :=
  ⟨by decide, finishRenderAsync_device_failure_no_publish (-1) sExC4 (by decide)⟩

/-- C3 (evaluation at the failing trace): the presenter thread starts with
`fullPresentDone = false`; after one successful present the flag stays true
forever unless a present fails. On the trace "successful present, buffer
resize, present again", the second present runs on a freshly resized buffer
(`bufferFresh = true`) yet passes the accumulated dirty-rectangle list to
`Present1` instead of presenting the whole buffer — the flag is never reset
by `Pimpl::resize` or `Pimpl::releaseDeviceContext`, contradicting the
claim (and the loop's own comment that a never-painted buffer is presented
in full). -/
theorem presenter_partial_present_on_fresh_buffer :
    presenterRun {} traceC3 = [(true, []), (true, [dirtyC3])] ∧
    [dirtyC3] ≠ ([] : List RECT) := by
  decide

/-- C5 (counterexample): a parent state with a realized gradient brush
handle and a resolved font face. The child pushed by `saveState` carries
the *same* raw handles — `currentBrush` and `currentFontFace` are copied
from the parent (source lines 1018, 1023), not reset to unrealized as the
claim states. -/
theorem savedStateChild_copies_realized_handles :
    ¬ ((savedStateChild parentExC5).currentBrush = none ∧
       (savedStateChild parentExC5).currentFontFace = none) ∧
    (savedStateChild parentExC5).currentBrush = some 5 ∧
    (savedStateChild parentExC5).currentFontFace = some 7 := by
  decide

/-- C5 (amended): the child state pushed by `saveState` copies the parent's
transform, clip bounds, fill descriptor, font and interpolation mode, and
*also* copies the parent's realized raw handles — the `currentBrush` brush
pointer and the `currentFontFace` font-face pointer are shared with the
parent, not reset; only the dedicated smart-pointer brush objects
(bitmap/gradient brushes, gradient stops), the font scale factor and the
pushed-layer stack start in their default unrealized state. -/
theorem savedStateChild_field_spec (parent : SavedState) :
    savedStateChild parent =
      { fillType := parent.fillType,
        currentBrush := parent.currentBrush,
        bitmapBrush := none,
        linearGradient := none,
        radialGradient := none,
        gradientStops := none,
        clipRegion := parent.clipRegion,
        currentTransform := parent.currentTransform,
        font := parent.font,
        fontHeightToEmSizeFactor := 1,
        currentFontFace := parent.currentFontFace,
        interpolationMode := parent.interpolationMode,
        pushedLayers := [] } := by
  unfold savedStateChild SavedState.setFill SavedState.clearFill
  dsimp only
  split
  · rfl
  · rename_i h
    simp only [ne_eq, Decidable.not_not] at h
    rw [← h]

/-- C6 (counterexample): with the state stack down to one (root) state, the
debug assertion does fire, but the release-build call is *not* a no-op: it
removes the last state (the stack is left empty rather than unchanged) and
the subsequent `currentState->updateColourBrush()` dereferences the now
null current-state pointer, modelled by the `none` result. -/
theorem restoreState_last_state_not_noop :
    restoreStateAssertOk [rootExC6] = false ∧
    restoreState [rootExC6] ≠ some [rootExC6] ∧
    restoreState [rootExC6] = none := by
  decide

/-- C6 (amended): calling `restoreState` with only one saved state left
fires the debug assertion; in release builds the call still pops that last
state, leaving an empty stack and a null current-state pointer that the
trailing `updateColourBrush()` call dereferences — the call fails rather
than degrading to a no-op. (With more than one state it pops normally.) -/
theorem restoreState_last_state_fails (st : SavedState) (states : List SavedState) :
    (restoreStateAssertOk [st] = false ∧ restoreState [st] = none) ∧
    (1 < states.length → restoreStateAssertOk states = true ∧
      restoreState states = some states.dropLast) := by
  refine ⟨⟨rfl, rfl⟩, fun h => ⟨by simp [restoreStateAssertOk, h], ?_⟩⟩
  unfold restoreState
  have hlen : states.dropLast.length = states.length - 1 := List.length_dropLast states
  have hne : states.dropLast ≠ [] := by
    intro hempty
    rw [hempty] at hlen
    simp at hlen
    omega
  dsimp only
  rw [List.getLast?_eq_getLast states.dropLast hne]

/-- C6 (witness): the amended theorem applied at stacks of length one and
two. -/
theorem restoreState_last_state_fails_witness :
    restoreState [rootExC6] = none ∧
    1 < ([rootExC6, rootExC6] : List SavedState).length ∧
    restoreState [rootExC6, rootExC6] = some [rootExC6] :=
  ⟨(restoreState_last_state_fails rootExC6 []).1.2, by decide, by
    have h := (restoreState_last_state_fails rootExC6 [rootExC6, rootExC6]).2 (by decide)
    simpa using h.2⟩

/-- After any `resize` call the stored buffer bounds equal the computed
window rectangle. -/
theorem resize_bufferBounds (clientRect : Rectangle) (resizeOk bufOk : Bool) (s : PimplState) :
    (resize clientRect resizeOk bufOk s).bufferBounds = resizeBounds clientRect := by
  unfold resize
  dsimp only
  split
  · rename_i h
    exact h
  · split
    · split <;> simp [createSwapChainBuffer, releaseDeviceContext]
    · rfl

/-- C8 (counterexample): for a degenerate client rectangle of size 0 by 5,
`resize` computes buffer bounds of 1 by 1 — `Rectangle::getUnion` discards
an empty rectangle wholesale, so the non-degenerate dimension is lost —
whereas clamping "to [1, 16384] in each dimension" would give 1 by 5.
(The claim's final conjunct also fails structurally: `Pimpl::resize` is
`void` and returns nothing to its caller.) -/
theorem resizeBounds_not_per_dimension_clamp :
    resizeBounds ⟨0, 0, 0, 5⟩ = ⟨0, 0, 1, 1⟩ ∧
    clampedBufferBounds ⟨0, 0, 0, 5⟩ = ⟨0, 0, 1, 5⟩ ∧
    resizeBounds ⟨0, 0, 0, 5⟩ ≠ clampedBufferBounds ⟨0, 0, 0, 5⟩ := by
  decide

/-- C8 (amended): for every client rectangle at the origin with *positive*
width and height, the buffer bounds computed by `resize` are exactly the
per-dimension clamp to [1, 16384]; an empty client rectangle collapses to
1 by 1 instead. If the computed bounds equal the current buffer bounds the
function returns the state unchanged, so a second `resize` with an
unchanged client rectangle is the identity — no buffer reallocation
happens. The function itself returns nothing (`void`). -/
theorem resize_clamped_and_idempotent (clientRect : Rectangle) (resizeOk bufOk : Bool)
    (s : PimplState) (hx : clientRect.x = 0) (hy : clientRect.y = 0)
    (hw : 0 < clientRect.w) (hh : 0 < clientRect.h) :
    resizeBounds clientRect = clampedBufferBounds clientRect ∧
    resize clientRect resizeOk bufOk (resize clientRect resizeOk bufOk s) =
      resize clientRect resizeOk bufOk s := by
  constructor
  · have hce : clientRect.isEmpty = false := by
      simp only [Rectangle.isEmpty, Bool.or_eq_false_iff, decide_eq_false_iff_not]
      omega
    have hone : (⟨0, 0, 1, 1⟩ : Rectangle).isEmpty = false := rfl
    unfold resizeBounds clampedBufferBounds Rectangle.getUnion Rectangle.getIntersection
    rw [hone, hce]
    simp only [Bool.false_eq_true, if_false]
    rw [if_pos (by constructor <;> omega)]
    simp only [Rectangle.mk.injEq]
    refine ⟨by omega, by omega, by omega, by omega⟩
  · conv_lhs => rw [resize]
    rw [if_pos (resize_bufferBounds clientRect resizeOk bufOk s)]

/-- C8 (witness): the amended theorem applied to a 640 by 480 client
rectangle. -/
theorem resize_clamped_and_idempotent_witness :
    clientExC8.x = 0 ∧ clientExC8.y = 0 ∧ 0 < clientExC8.w ∧ 0 < clientExC8.h ∧
    (resizeBounds clientExC8 = clampedBufferBounds clientExC8 ∧
     resize clientExC8 true true (resize clientExC8 true true sExC2) =
       resize clientExC8 true true sExC2) :=
  ⟨rfl, rfl, by decide, by decide,
   resize_clamped_and_idempotent clientExC8 true true sExC2 rfl rfl (by decide) (by decide)⟩

theorem translateRect_zero (q : Rectangle) : translateRect {} q = q := by
  cases q
  simp [translateRect]

theorem countP_reverse (f : Rectangle → Bool) (l : List Rectangle) :
    l.reverse.countP f = l.countP f := by
  induction l with
  | nil => rfl
  | cons a l ih =>
      simp [List.countP_cons, ih]

/-- C9: with an active device context and the identity transform,
`excludeClipRectangle r` pushes exactly one geometry clip layer, built with
the even-odd (`ALTERNATE`) fill mode from the two-rectangle list
{r, bufferBounds} assembled by `addWithoutMerging`; and the resulting
geometry contains a point of the buffer precisely when the point is *not*
in `r` — so a fill over the whole buffer fills exactly
bufferBounds minus r. -/
theorem excludeClipRectangle_subtracts (r : Rectangle) (ctx : DrawContext) (px py : Int)
    (hdev : ctx.deviceContext = true)
    (ht : ctx.state.currentTransform = {})
    (hp : ctx.bufferBounds.containsPoint px py = true) :
    (excludeClipRectangle r ctx).pushedLayers =
      ctx.state.pushedLayers ++
        [ClipLayer.geometryLayer
          (rectListToPathGeometry ctx.state.currentTransform
            (excludeClipRectangleRects r ctx.bufferBounds)) FillMode.alternate] ∧
    evenOddContains
      (rectListToPathGeometry ctx.state.currentTransform
        (excludeClipRectangleRects r ctx.bufferBounds)) px py
      = !(r.containsPoint px py) := by
  have hbb : ctx.bufferBounds.isEmpty = false := isEmpty_false_of_containsPoint hp
  constructor
  · unfold excludeClipRectangle
    simp [hdev]
  · unfold evenOddContains rectListToPathGeometry
    rw [ht]
    simp only [translateRect_zero, List.map_id', countP_reverse]
    unfold excludeClipRectangleRects rectListAddWithoutMerging
    by_cases he : r.isEmpty = true
    · rw [containsPoint_false_of_isEmpty px py he]
      simp [he, hbb, List.countP_cons, hp, translateRect_zero]
    · simp only [Bool.not_eq_true] at he
      simp only [he, hbb, Bool.false_eq_true, if_false, List.nil_append]
      cases hrc : r.containsPoint px py <;>
        simp [List.countP_cons, List.countP_nil, hp, hrc, translateRect_zero]

/-- C9 (witness): the exclusion theorem applied to a concrete rectangle
and a point of the buffer outside it. -/
theorem excludeClipRectangle_subtracts_witness :
    ctxExC9.deviceContext = true ∧
    ctxExC9.state.currentTransform = {} ∧
    ctxExC9.bufferBounds.containsPoint 20 170 = true ∧
    ((excludeClipRectangle ⟨0, 0, 100, 100⟩ ctxExC9).pushedLayers =
      ctxExC9.state.pushedLayers ++
        [ClipLayer.geometryLayer
          (rectListToPathGeometry ctxExC9.state.currentTransform
            (excludeClipRectangleRects ⟨0, 0, 100, 100⟩ ctxExC9.bufferBounds))
          FillMode.alternate] ∧
    evenOddContains
      (rectListToPathGeometry ctxExC9.state.currentTransform
        (excludeClipRectangleRects ⟨0, 0, 100, 100⟩ ctxExC9.bufferBounds)) 20 170
      = !((⟨0, 0, 100, 100⟩ : Rectangle).containsPoint 20 170)) :=
  ⟨rfl, rfl, by decide,
   excludeClipRectangle_subtracts ⟨0, 0, 100, 100⟩ ctxExC9 20 170 rfl rfl (by decide)⟩

/-- C10 (counterexample): `drawGlyph` with no device context created. The
source calls `createBrush()` and `createFont()` *before* the device-context
check, so with a resolvable typeface the state's font-face cache is
realized (`currentFontFace` goes from null to a handle): the call draws
nothing but does *not* leave the graphics state unchanged. -/
theorem drawGlyph_realizes_font_without_device :
    ctxExC10.deviceContext = false ∧
    (runPrimitive ctxExC10 (.drawGlyph 3)).ops = [] ∧
    (runPrimitive ctxExC10 (.drawGlyph 3)).state ≠ ctxExC10.state ∧
    (runPrimitive ctxExC10 (.drawGlyph 3)).state.currentFontFace = some 7 := by
  decide

/-- C10 (amended): with a null device context, every drawing primitive
issues no native draw call, and every bool-returning primitive among
`drawRect`, `drawPath`, `drawRoundedRectangle`, `fillRoundedRectangle`,
`drawEllipse`, `fillEllipse` returns false; the graphics state is left
unchanged except that `drawGlyph`/`drawGlyphRun` may still realize the
lazily cached font face and em-size factor (they run `createFont()` before
the device check). -/
theorem primitives_null_device (ctx : DrawContext) (call : DrawCall)
    (hdev : ctx.deviceContext = false) :
    (runPrimitive ctx call).ops = [] ∧
    (∀ b, (runPrimitive ctx call).returned = some b → b = false) ∧
    eqExceptFontCache ctx.state (runPrimitive ctx call).state := by
  have hrefl : ∀ s : SavedState, eqExceptFontCache s s := fun _ => rfl
  have hbrush : createBrush ctx = ctx.state := by
    unfold createBrush
    rw [if_neg]
    simp [hdev]
  have hfont : eqExceptFontCache ctx.state (createFont ctx.resolveFontFace ctx.state) := by
    unfold createFont eqExceptFontCache
    split
    · split
      · rfl
      · rfl
    · rfl
  cases call <;>
    simp only [runPrimitive, hdev, Bool.false_eq_true, if_false, hbrush, and_true,
      and_false, false_and, ne_eq] <;>
    refine ⟨trivial, fun b hb => ?_, ?_⟩ <;>
    first
    | exact Option.noConfusion hb
    | (injection hb with h; exact h.symm)
    | exact hrefl ctx.state
    | exact hfont

/-- C10 (witness): the amended theorem applied to `fillEllipse` on the
device-less context. -/
theorem primitives_null_device_witness :
    ctxExC10.deviceContext = false ∧
    ((runPrimitive ctxExC10 (.fillEllipse ⟨0, 0, 10, 10⟩)).ops = [] ∧
     (∀ b, (runPrimitive ctxExC10 (.fillEllipse ⟨0, 0, 10, 10⟩)).returned = some b →
        b = false) ∧
     eqExceptFontCache ctxExC10.state (runPrimitive ctxExC10 (.fillEllipse ⟨0, 0, 10, 10⟩)).state) :=
  ⟨rfl, primitives_null_device ctxExC10 (.fillEllipse ⟨0, 0, 10, 10⟩) rfl⟩

end JuceD2D
